import Mathlib

/-!
# hand_tracking.js: the per-frame handler `onResults`

A shallow embedding of `onResults` (src/hand_tracking.js, lines 8-121) and the
properties of the gesture classification and of the delivery to the Godot callback.

Modelling conventions.

* JavaScript numbers are the rationals `ℚ` with exact arithmetic: landmark coordinates
  are finite numbers, and neither IEEE-754 rounding nor `NaN` is modelled.
* `Math.hypot(a, b)` is the non-negative real whose square is `a*a + b*b`.  It is kept
  exactly, as that square (`Hypot`), and two such values are compared through their
  squares; `isExtended_iff_wristDistLt` ties this to `Real.sqrt`.
* A landmark set has the 21 points MediaPipe Hands produces, so `landmarks[i]` is total.
* The effects of one call of `onResults` are recorded as a list of events: the calls of
  the Godot callback, `console.warn`, and the texts written with `canvasCtx.fillText`.
  The remaining canvas drawing (skeleton, image, progress bar) has no influence on the
  control flow and is left out.
* An operation that can throw is a value of `Except Unit _`; `try`/`catch` is the case
  split on it.
-/

namespace HandTracking

/-! ## Data model -/

/-- One landmark of the detection result: normalised image coordinates and depth. -/
structure Landmark where
  x : ℚ
  y : ℚ
  z : ℚ

/-- The landmark array of one hand, `results.multiHandLandmarks[k]`: 21 points. -/
abbrev LandmarkSet := Fin 21 → Landmark

/-- The argument of `onResults`, restricted to the field the handler branches on.
`none` is an absent (undefined or null) `multiHandLandmarks`. -/
structure Results where
  multiHandLandmarks : Option (List LandmarkSet)

/-- A function object found under `godot_hand_update`.  `tag` tells function objects
apart; `throwsOn xPos isHandOpen` says whether the call `fn([xPos, isHandOpen])` throws. -/
structure Callback where
  tag : Nat
  throwsOn : ℚ → Bool → Bool

/-- The values a property can hold, as far as `typeof v === 'function'` can tell. -/
inductive JSValue where
  | undefined
  | other
  | function (fn : Callback)

/-- The iframe window `gameFrame.contentWindow`, as seen from the page: the outcome of
reading its property `godot_hand_update` and the outcome of `Object.keys` on it.  Either
can throw (a cross-origin window). -/
structure GameWindow where
  godot_hand_update : Except Unit JSValue
  keys : Except Unit (List String)

/-- The part of the page `onResults` reads: the iframe window (`none` when
`contentWindow` is null) and the outcome of reading `window.godot_hand_update`. -/
structure Page where
  contentWindow : Option GameWindow
  godot_hand_update : Except Unit JSValue

/-- The observable effects of `onResults`. -/
inductive Event where
  | call (fn : Callback) (xPos : ℚ) (isHandOpen : Bool)
  | fillText (text : String)
  | warn

/-- What a piece of code did: the events in order, and whether it ended by throwing. -/
structure Outcome where
  events : List Event
  thrown : Bool

/-! ## Step 2: the horizontal position (lines 27-34) -/

/-- Lines 27-34: `xPos = landmarks[8].x; xPos = 1.0 - xPos;
xPos = Math.max(0.0, Math.min(1.0, xPos))`. -/
def xPos (landmarks : LandmarkSet) : ℚ :=
  let xPos := (landmarks 8).x
  let xPos := 1 - xPos
  max 0 (min 1 xPos)

/-! ## Step 3: is the hand open (lines 39-52) -/

/-- The value of a call of `Math.hypot`, kept as its square. -/
structure Hypot where
  sq : ℚ

/-- The call `Math.hypot(a, b)`, the square root of `a*a + b*b`. -/
def hypot (a b : ℚ) : Hypot := ⟨a * a + b * b⟩

/-- Order of two `Math.hypot` values: the order of their squares. -/
instance : LT Hypot := ⟨fun u v => u.sq < v.sq⟩

instance (u v : Hypot) : Decidable (u < v) := inferInstanceAs (Decidable (u.sq < v.sq))

/-- Lines 39-43: `isExtended(tipId, pipId)`. -/
def isExtended (landmarks : LandmarkSet) (tipId pipId : Fin 21) : Bool :=
  let distTip := hypot ((landmarks tipId).x - (landmarks 0).x)
    ((landmarks tipId).y - (landmarks 0).y)
  let distPip := hypot ((landmarks pipId).x - (landmarks 0).x)
    ((landmarks pipId).y - (landmarks 0).y)
  decide (distTip > distPip)

/-- Lines 45-51: `openCount`. -/
def openCount (landmarks : LandmarkSet) : Nat :=
  let indexOpen := isExtended landmarks 8 6
  let middleOpen := isExtended landmarks 12 10
  let ringOpen := isExtended landmarks 16 14
  let pinkyOpen := isExtended landmarks 20 18
  (if indexOpen then 1 else 0) + (if middleOpen then 1 else 0) + (if ringOpen then 1 else 0)
    + (if pinkyOpen then 1 else 0)

/-- Line 52: `isHandOpen = openCount >= 3`. -/
def isHandOpen (landmarks : LandmarkSet) : Bool :=
  decide (openCount landmarks ≥ 3)

/-! ## Step 4: sending to Godot (lines 57-106) -/

/-- The test `s.includes(searchString)`: `searchString` occurs in `s` as a contiguous
block. -/
def includes (s searchString : String) : Bool :=
  s.toList.tails.any fun t => searchString.toList.isPrefixOf t

/-- The call `k.toLowerCase()` on the letters `A`-`Z`.  No character outside `A`-`Z` lower-cases
to a letter of "godot" or "hand", so the two tests of line 92 are not affected by the
Unicode case mappings left out here. -/
def toLowerCase (k : String) : String := ⟨k.toList.map Char.toLower⟩

/-- The call `s.substring(0, n)`: the first `n` characters of `s`. -/
def substring0 (s : String) (n : Nat) : String := ⟨s.toList.take n⟩

/-- Lines 57-72: the lookup of `godotFn` and `connectionType`.  `Except.error` is an
exception thrown by one of the property reads. -/
def lookup (page : Page) : Except Unit (Option Callback × String) :=
  let checkOwnWindow : Except Unit (Option Callback × String) :=
    match page.godot_hand_update with
    | .error e => .error e
    | .ok (.function fn) => .ok (some fn, "Parent")
    | .ok _ => .ok (none, "")
  match page.contentWindow with
  | none => checkOwnWindow
  | some gameWindow =>
    match gameWindow.godot_hand_update with
    | .error e => .error e
    | .ok (.function fn) => .ok (some fn, "Iframe")
    | .ok _ => checkOwnWindow

/-- Lines 88-94: the diagnostic `candidates`, with the inner `try`/`catch`. -/
def candidates (gameWindow : Option GameWindow) : List String :=
  match gameWindow with
  | none => []
  | some gameWindow =>
    match gameWindow.keys with
    | .ok keys =>
      keys.filter fun k => includes (toLowerCase k) "godot" || includes (toLowerCase k) "hand"
    | .error _ => ["Access Denied"]

/-- Lines 97-101: the text of the diagnostic line. -/
def diagnosticText (candidates : List String) : String :=
  if candidates.length > 0 then
    "Found similar: " ++ substring0 (String.intercalate ", " candidates) 30
  else
    "No \x27godot...\x27 functions found on iframe."

/-- Lines 61-102: the body of the outer `try`. -/
def tryBody (page : Page) (xPos : ℚ) (isHandOpen : Bool) : Outcome :=
  match lookup page with
  | .error _ => ⟨[], true⟩
  | .ok (some godotFn, connectionType) =>
    if godotFn.throwsOn xPos isHandOpen then
      ⟨[.call godotFn xPos isHandOpen], true⟩
    else
      ⟨[.call godotFn xPos isHandOpen,
        .fillText ("Connected to Godot (" ++ connectionType ++ ")")], false⟩
  | .ok (none, _) =>
    ⟨[.fillText "Waiting for Godot...",
      .fillText (diagnosticText (candidates page.contentWindow))], false⟩

/-- Lines 8-121: `onResults(results)`. -/
def onResults (page : Page) (results : Results) : Outcome :=
  match results.multiHandLandmarks with
  | some (landmarks :: _) =>
    let xPos := xPos landmarks
    let isHandOpen := isHandOpen landmarks
    let body := tryBody page xPos isHandOpen
    let caught := if body.thrown then [Event.warn] else []
    ⟨body.events ++ caught ++ [.fillText (if isHandOpen then "DROP" else "HOLD")], false⟩
  | _ => ⟨[], false⟩

/-- The calls of a Godot callback among the events, in order, with their argument. -/
def calls : List Event → List (Callback × ℚ × Bool)
  | [] => []
  | .call fn xPos isHandOpen :: rest => (fn, xPos, isHandOpen) :: calls rest
  | _ :: rest => calls rest

/-! ## The geometric reading of `isExtended` -/

/-- A hand with the wrist at `(1/2, 0)`, the index tip at `x = x8`, every other point at
`x = 1/2`, mid-joints at height `1/4`, the remaining points at height `1/2`, and the
points listed in `curled` folded back to height `0`. -/
def hand (x8 : ℚ) (curled : List (Fin 21)) : LandmarkSet := fun i =>
  ⟨if i = 8 then x8 else 1 / 2,
   if i = 0 ∨ i ∈ curled then 0 else if i ∈ [6, 10, 14, 18] then 1 / 4 else 1 / 2,
   0⟩

/-- A callback that returns normally. -/
def quietFn (tag : Nat) : Callback := ⟨tag, fun _ _ => false⟩

/-- A callback that throws whatever it is given. -/
def throwingFn (tag : Nat) : Callback := ⟨tag, fun _ _ => true⟩

/-- An iframe window holding `v` under `godot_hand_update`, with the given property names. -/
def readableWindow (v : JSValue) (keys : List String) : GameWindow := ⟨.ok v, .ok keys⟩

/-- A cross-origin iframe window: every access throws. -/
def crossOriginWindow : GameWindow := ⟨.error (), .error ()⟩

/-- A frame in which one hand was detected. -/
def oneHand (landmarks : LandmarkSet) : Results := ⟨some [landmarks]⟩

/-- Both the iframe window and the own window expose a callback. -/
def bothPage : Page :=
  ⟨some (readableWindow (.function (quietFn 1)) ["godot_hand_update"]),
    .ok (.function (quietFn 2))⟩

/-- A cross-origin iframe, and a callback on the own window. -/
def crossOriginPage : Page := ⟨some crossOriginWindow, .ok (.function (quietFn 2))⟩

/-- The iframe window exposes a callback that throws. -/
def throwingPage : Page :=
  ⟨some (readableWindow (.function (throwingFn 1)) []), .ok .undefined⟩

theorem Hypot.lt_def (u v : Hypot) : u < v ↔ u.sq < v.sq := Iff.rfl

theorem hand_index_tip_x (x8 : ℚ) (curled : List (Fin 21)) : (hand x8 curled 8).x = x8 := by
  simp [hand]

theorem openCount_hand_all (x8 : ℚ) : openCount (hand x8 []) = 4 := by
  have h : (4⁻¹ : ℚ) * 4⁻¹ < (x8 - 2⁻¹) * (x8 - 2⁻¹) + 2⁻¹ * 2⁻¹ := by
    nlinarith [mul_self_nonneg (x8 - 2⁻¹)]
  simp [openCount, isExtended, hypot, hand, Hypot.lt_def, h]
  norm_num

/-- C1: for every landmark set, whatever the raw `x` of the index tip, the position
computed by `onResults` lies in `[0, 1]`. -/
theorem xPos_mem_unit_interval (landmarks : LandmarkSet) :
    0 ≤ xPos landmarks ∧ xPos landmarks ≤ 1 := by
  simp [xPos]

/-- C2: when the raw `x` of the index tip lies in `[0, 1]`, the position is exactly the
mirrored value `1 - landmarks[8].x`. -/
theorem xPos_eq_mirror (landmarks : LandmarkSet) (h0 : 0 ≤ (landmarks 8).x)
    (h1 : (landmarks 8).x ≤ 1) : xPos landmarks = 1 - (landmarks 8).x := by
  simp only [xPos]
  rw [min_eq_right (by linarith), max_eq_right (by linarith)]

theorem xPos_eq_mirror_witness :
    xPos (hand (4 / 5) []) = 1 - (hand (4 / 5) [] 8).x :=
  xPos_eq_mirror (hand (4 / 5) []) (by norm_num [hand_index_tip_x])
    (by norm_num [hand_index_tip_x])

/-- C5: when both property reads succeed, the lookup takes the first match in priority
order: a function on the iframe window is selected with origin "Iframe", also when the
own window has one too; otherwise a function on the own window is selected with origin
"Parent"; otherwise nothing is selected and the origin is empty. -/
theorem lookup_priority (page : Page) (gameWindow : GameWindow) (vi vo : JSValue)
    (hw : page.contentWindow = some gameWindow)
    (hi : gameWindow.godot_hand_update = .ok vi) (ho : page.godot_hand_update = .ok vo) :
    (∀ fn, vi = .function fn → lookup page = .ok (some fn, "Iframe")) ∧
      (∀ fn, (∀ g, vi ≠ .function g) → vo = .function fn →
        lookup page = .ok (some fn, "Parent")) ∧
      ((∀ g, vi ≠ .function g) → (∀ g, vo ≠ .function g) → lookup page = .ok (none, "")) := by
  refine ⟨?_, ?_, ?_⟩
  · rintro fn rfl
    simp [lookup, hw, hi]
  · rintro fn hvi rfl
    cases vi with
    | function g => exact absurd rfl (hvi g)
    | undefined => simp [lookup, hw, hi, ho]
    | other => simp [lookup, hw, hi, ho]
  · intro hvi hvo
    cases vi with
    | function g => exact absurd rfl (hvi g)
    | undefined =>
      cases vo with
      | function g => exact absurd rfl (hvo g)
      | undefined => simp [lookup, hw, hi, ho]
      | other => simp [lookup, hw, hi, ho]
    | other =>
      cases vo with
      | function g => exact absurd rfl (hvo g)
      | undefined => simp [lookup, hw, hi, ho]
      | other => simp [lookup, hw, hi, ho]

theorem lookup_priority_witness : lookup bothPage = .ok (some (quietFn 1), "Iframe") :=
  (lookup_priority bothPage (readableWindow (.function (quietFn 1)) ["godot_hand_update"])
    (.function (quietFn 1)) (.function (quietFn 2)) rfl rfl rfl).1 (quietFn 1) rfl

/-- C6 as stated fails: with a cross-origin iframe window and a callback on the own
window, the own window is never consulted and the callback is not invoked. -/
theorem no_fallback_after_throwing_read :
    ¬ ∀ (page : Page) (gameWindow : GameWindow) (landmarks : LandmarkSet)
        (rest : List LandmarkSet) (fn : Callback) (e : Unit),
        page.contentWindow = some gameWindow → gameWindow.godot_hand_update = .error e →
        page.godot_hand_update = .ok (.function fn) →
        lookup page = .ok (some fn, "Parent") ∧
          (fn, xPos landmarks, isHandOpen landmarks)
            ∈ calls (onResults page ⟨some (landmarks :: rest)⟩).events := by
  intro h
  have := (h crossOriginPage crossOriginWindow (hand (4 / 5) []) [] (quietFn 2) () rfl rfl
    rfl).2
  simp [onResults, tryBody, lookup, crossOriginPage, crossOriginWindow, calls] at this

/-- C6, amended: when reading `godot_hand_update` on the iframe window throws, the
lookup stops there; whatever the own window exposes, no callback is invoked, the
exception is caught and logged with `console.warn`, and nothing is thrown to the caller. -/
theorem throwing_read_is_absorbed (page : Page) (gameWindow : GameWindow)
    (landmarks : LandmarkSet) (rest : List LandmarkSet) (e : Unit)
    (hw : page.contentWindow = some gameWindow)
    (hi : gameWindow.godot_hand_update = .error e) :
    lookup page = .error e ∧
      onResults page ⟨some (landmarks :: rest)⟩ =
        ⟨[.warn, .fillText (if isHandOpen landmarks then "DROP" else "HOLD")], false⟩ ∧
      calls (onResults page ⟨some (landmarks :: rest)⟩).events = [] := by
  have hl : lookup page = .error e := by simp [lookup, hw, hi]
  refine ⟨hl, ?_, ?_⟩ <;> simp [onResults, tryBody, hl, calls]

theorem throwing_read_is_absorbed_witness :
    onResults crossOriginPage (oneHand (hand (4 / 5) [])) =
      ⟨[.warn, .fillText (if isHandOpen (hand (4 / 5) []) then "DROP" else "HOLD")], false⟩ :=
  (throwing_read_is_absorbed crossOriginPage crossOriginWindow (hand (4 / 5) []) [] ()
    rfl rfl).2.1

/-! ## Delivery -/

theorem gesture_text_ne_connected (isHandOpen : Bool) (connectionType : String) :
    (if isHandOpen then "DROP" else "HOLD") ≠ "Connected to Godot (" ++ connectionType ++ ")" := by
  intro h
  have hlen := congrArg String.length h
  cases isHandOpen <;> simp [String.length_append] at hlen <;>
    (have h4 : "HOLD".length = 4 := rfl; have h4b : "DROP".length = 4 := rfl
     have h20 : "Connected to Godot (".length = 20 := rfl
     have h1 : ")".length = 1 := rfl
     omega)

/-- C7: when the located callback throws on the signal, `onResults` throws nothing to
its caller; the callback was called once, the exception is logged with `console.warn`,
and no "Connected to Godot (...)" text is written. -/
theorem throwing_callback_is_absorbed (page : Page) (landmarks : LandmarkSet)
    (rest : List LandmarkSet) (fn : Callback) (connectionType : String)
    (hl : lookup page = .ok (some fn, connectionType))
    (ht : fn.throwsOn (xPos landmarks) (isHandOpen landmarks) = true) :
    (onResults page ⟨some (landmarks :: rest)⟩).thrown = false ∧
      (onResults page ⟨some (landmarks :: rest)⟩).events =
        [.call fn (xPos landmarks) (isHandOpen landmarks), .warn,
          .fillText (if isHandOpen landmarks then "DROP" else "HOLD")] ∧
      ∀ c, Event.fillText ("Connected to Godot (" ++ c ++ ")")
        ∉ (onResults page ⟨some (landmarks :: rest)⟩).events := by
  have hev : (onResults page ⟨some (landmarks :: rest)⟩).events =
      [.call fn (xPos landmarks) (isHandOpen landmarks), .warn,
        .fillText (if isHandOpen landmarks then "DROP" else "HOLD")] := by
    simp [onResults, tryBody, hl, ht]
  refine ⟨by simp [onResults], hev, fun c hc => ?_⟩
  rw [hev] at hc
  simp only [List.mem_cons, List.mem_singleton, Event.fillText.injEq, List.mem_nil_iff,
    or_false, false_or, reduceCtorEq] at hc
  exact gesture_text_ne_connected _ _ hc.symm

theorem throwing_callback_is_absorbed_witness :
    (onResults throwingPage (oneHand (hand (4 / 5) []))).thrown = false ∧
      (onResults throwingPage (oneHand (hand (4 / 5) []))).events =
        [.call (throwingFn 1) (xPos (hand (4 / 5) [])) (isHandOpen (hand (4 / 5) [])), .warn,
          .fillText (if isHandOpen (hand (4 / 5) []) then "DROP" else "HOLD")] :=
  let h := throwing_callback_is_absorbed throwingPage (hand (4 / 5) []) [] (throwingFn 1)
    "Iframe" rfl rfl
  ⟨h.1, h.2.1⟩

/-- C8: when `multiHandLandmarks` is absent or empty, `onResults` has no effect at all:
no signal is computed and no callback is invoked, whatever the page exposes. -/
theorem no_hand_no_effect (page : Page) (results : Results)
    (h : results.multiHandLandmarks = none ∨ results.multiHandLandmarks = some []) :
    onResults page results = ⟨[], false⟩ ∧ calls (onResults page results).events = [] := by
  rcases h with h | h <;> simp [onResults, h, calls]

theorem no_hand_no_effect_witness :
    onResults bothPage ⟨some []⟩ = ⟨[], false⟩ ∧ onResults bothPage ⟨none⟩ = ⟨[], false⟩ :=
  ⟨(no_hand_no_effect bothPage ⟨some []⟩ (Or.inr rfl)).1,
    (no_hand_no_effect bothPage ⟨none⟩ (Or.inl rfl)).1⟩

end HandTracking
